import Mathlib

/-!
Shallow embedding of the LLM-planned newsletter-digest pipeline
(`backend/agent/agent.py`, `backend/agent/llm.py`, `backend/agent/tool_manifests.py`).

Python values that flow through the agent (JSON-parsed oracle output, the
shared state dictionary, tool parameters and tool results) are modelled by the
`Value` type below.  Python dictionaries are association lists in insertion
order; subscript assignment is `dinsert` (replace in place or append).
-/

/-- A Python/JSON-like runtime value: `None`, `bool`, `int`, `str`,
`list`, and `dict` with string keys (insertion ordered).  Floats do not occur
in any value produced or consumed by the agent core and are omitted. -/
inductive Value where
  | null : Value
  | bool (b : Bool) : Value
  | int (n : Int) : Value
  | str (s : String) : Value
  | list (xs : List Value) : Value
  | dict (fields : List (String × Value)) : Value
deriving Repr

/-- Python truthiness (`bool(v)`) for the values of the model: `None` is falsy,
numbers are truthy iff nonzero, strings/lists/dicts iff nonempty. -/
def pyTruthy : Value → Bool
  | .null => false
  | .bool b => b
  | .int n => n != 0
  | .str s => !(s.isEmpty)
  | .list xs => !(xs.isEmpty)
  | .dict fs => !(fs.isEmpty)

/-- Numeric view used by Python `==`: `True`/`False` compare equal to `1`/`0`. -/
def Value.asNum : Value → Option Int
  | .bool b => some (if b then 1 else 0)
  | .int n => some n
  | _ => none

mutual
/-- Python `==` on the modelled values.  Scalars follow Python's numeric
coercion (`True == 1`); lists compare elementwise; dicts compare fieldwise in
order (Python's dict `==` ignores order, but no manifest filter value is a
dict, so the distinction is unreachable in this program). -/
def pyEq : Value → Value → Bool
  | .null, .null => true
  | .str a, .str b => a == b
  | .list a, .list b => pyEqList a b
  | .dict a, .dict b => pyEqDict a b
  | a, b =>
    match a.asNum, b.asNum with
    | some x, some y => x == y
    | _, _ => false

def pyEqList : List Value → List Value → Bool
  | [], [] => true
  | a :: as, b :: bs => pyEq a b && pyEqList as bs
  | _, _ => false

def pyEqDict : List (String × Value) → List (String × Value) → Bool
  | [], [] => true
  | (k, a) :: as, (l, b) :: bs => k == l && pyEq a b && pyEqDict as bs
  | _, _ => false
end

/-- The agent's state dictionary (and parameter dictionaries): an association
list in insertion order, like a Python `dict`. -/
abbrev StateMap := List (String × Value)

/-- Python dict subscript assignment `d[k] = v`: overwrite the existing
binding in place, else append. -/
def dinsert : StateMap → String → Value → StateMap
  | [], k, v => [(k, v)]
  | (k', v') :: rest, k, v =>
    if k' == k then (k, v) :: rest else (k', v') :: dinsert rest k v

theorem lookup_dinsert_self (s : StateMap) (k : String) (v : Value) :
    List.lookup k (dinsert s k v) = some v := by
  induction s with
  | nil => simp [dinsert, List.lookup]
  | cons hd tl ih =>
    obtain ⟨k', v'⟩ := hd
    by_cases h : k' = k
    · simp [dinsert, h, List.lookup]
    · have hb : (k == k') = false := beq_eq_false_iff_ne.mpr (fun hh => h hh.symm)
      simp [dinsert, h, List.lookup, hb, ih]

theorem lookup_dinsert_ne (s : StateMap) (k k' : String) (v : Value) (h : k ≠ k') :
    List.lookup k (dinsert s k' v) = List.lookup k s := by
  have hb : (k == k') = false := beq_eq_false_iff_ne.mpr h
  induction s with
  | nil => simp [dinsert, List.lookup, hb]
  | cons hd tl ih =>
    obtain ⟨k0, v0⟩ := hd
    by_cases h0 : k0 = k'
    · subst h0
      simp [dinsert, List.lookup, hb]
    · simp only [dinsert, beq_iff_eq, h0, if_false, List.lookup]
      cases h1 : k == k0 with
      | true => simp
      | false => simpa using ih

/-!
## Tool manifests (`backend/agent/tool_manifests.py`)
-/

/-- A manifest filter spec, e.g. `{'field': 'is_newsletter', 'value': True}`. -/
structure FilterSpec where
  field : String
  value : Value

/-- One entry of a manifest's `input_params`.  The dispatcher
(`prepare_tool_params`) reads only `filter`; `required` and `default` are
carried in the manifest data but never consulted by the code. -/
structure ParamSpec where
  type : String
  description : String
  required : Bool
  default : Option Value := none
  filter : Option FilterSpec := none

/-- A tool manifest: name, description, declared input parameters (in
declaration order), and declared state reads/writes.  `output_params` is
documentation only (it is serialized for the oracle but never drives the
dispatcher) and is omitted from the model. -/
structure Manifest where
  name : String
  description : String
  input_params : List (String × ParamSpec)
  state_reads : List String
  state_writes : List String

/-- `TOOL_MANIFESTS['fetch_emails']`. -/
def fetchEmailsManifest : Manifest where
  name := "fetch_emails"
  description := "Fetches emails from Gmail using the Gmail API"
  input_params :=
    [("num_emails",
      { type := "int", description := "Number of emails to fetch",
        required := false, default := some (.int 10), filter := none })]
  state_reads := []
  state_writes := ["emails"]

/-- `TOOL_MANIFESTS['analyze_newsletters']`. -/
def analyzeNewslettersManifest : Manifest where
  name := "analyze_newsletters"
  description := "Analyzes emails to identify which ones are newsletters"
  input_params :=
    [("emails",
      { type := "List[Dict[str, Any]]",
        description := "List of email dictionaries to analyze",
        required := true, default := none, filter := none })]
  state_reads := ["emails"]
  state_writes := ["newsletters"]

/-- `TOOL_MANIFESTS['summarize_newsletters']`. -/
def summarizeNewslettersManifest : Manifest where
  name := "summarize_newsletters"
  description := "Generates concise summaries of identified newsletters"
  input_params :=
    [("newsletters",
      { type := "List[Dict[str, Any]]",
        description := "List of newsletter dictionaries to summarize",
        required := true, default := none,
        filter := some { field := "is_newsletter", value := .bool true } })]
  state_reads := ["newsletters"]
  state_writes := ["summarized_newsletters"]

/-- `TOOL_MANIFESTS['format_digest']`. -/
def formatDigestManifest : Manifest where
  name := "format_digest"
  description := "Formats newsletter summaries into a markdown digest"
  input_params :=
    [("summarized_newsletters",
      { type := "List[Dict[str, Any]]",
        description := "List of newsletters with summaries to format",
        required := true, default := none,
        filter := some { field := "is_newsletter", value := .bool true } })]
  state_reads := ["summarized_newsletters"]
  state_writes := ["digest"]

/-- The registry `TOOLS` of `agent.py`, as the lookup `TOOLS.get(name)` on its
manifests (the callables are external collaborators, passed separately to the
dispatch loop as `impls`). -/
def TOOLS_lookup (name : String) : Option Manifest :=
  if name == "fetch_emails" then some fetchEmailsManifest
  else if name == "analyze_newsletters" then some analyzeNewslettersManifest
  else if name == "summarize_newsletters" then some summarizeNewslettersManifest
  else if name == "format_digest" then some formatDigestManifest
  else none

/-!
## Parameter binder (`prepare_tool_params`, agent.py lines 39-71)
-/

/-- `item.get(field)` for a dict item: the field's value, defaulting to
Python `None` when absent. -/
def dictGetD (fields : List (String × Value)) (k : String) : Value :=
  (List.lookup k fields).getD .null

/-- One element's filter test, `item.get(filter_info['field']) ==
filter_info['value']`.  Returns `none` for a non-dict element, on which
Python's `item.get` raises `AttributeError`. -/
def filterTest (field : String) (fval : Value) : Value → Option Bool
  | .dict fs => some (pyEq (dictGetD fs field) fval)
  | _ => none

/-- The list comprehension of lines 64-67: keep the elements whose `field`
attribute equals `fval`, in order.  `none` models the `AttributeError` raised
at the first non-dict element. -/
def applyFilter (field : String) (fval : Value) : List Value → Option (List Value)
  | [] => some []
  | x :: xs =>
    match filterTest field fval x with
    | none => none
    | some b => (applyFilter field fval xs).map (fun r => if b then x :: r else r)

/-- The body of `prepare_tool_params`'s loop for one declared parameter:
`num_emails` always binds the invocation-time `email_count`; otherwise a
parameter present in state binds its state value, filtered when the spec
carries a filter and the value is a list; a parameter absent from state is
silently skipped.  `none` models a raised `AttributeError` from the filter. -/
def bindParam (state : StateMap) (email_count : Int) (acc : StateMap)
    (pname : String) (spec : ParamSpec) : Option StateMap :=
  if pname == "num_emails" then some (dinsert acc pname (.int email_count))
  else
    match List.lookup pname state with
    | some value =>
      match spec.filter with
      | some fl =>
        match value with
        | .list xs => (applyFilter fl.field fl.value xs).map
            (fun ys => dinsert acc pname (.list ys))
        | _ => some (dinsert acc pname value)
      | none => some (dinsert acc pname value)
    | none => some acc

/-- The `for param_name, param_info in tool_manifest['input_params'].items()`
loop of `prepare_tool_params`, threading the accumulating `tool_params`. -/
def bindParams (state : StateMap) (email_count : Int) :
    List (String × ParamSpec) → StateMap → Option StateMap
  | [], acc => some acc
  | (pname, spec) :: rest, acc =>
    match bindParam state email_count acc pname spec with
    | some acc' => bindParams state email_count rest acc'
    | none => none

/-- `prepare_tool_params(tool_name, state, email_count)`.  `none` models a
raised exception: `KeyError` on an unregistered tool name, or the filter's
`AttributeError`. -/
def prepare_tool_params (tool_name : String) (state : StateMap)
    (email_count : Int) : Option StateMap :=
  match TOOLS_lookup tool_name with
  | some m => bindParams state email_count m.input_params []
  | none => none

/-!
## State store (`update_state`, agent.py lines 73-91)
-/

/-- The `for state_key in state_updates: state[state_key] = result` loop:
every declared write key is assigned the tool's `result`. -/
def applyWrites (writes : List String) (result : Value) (state : StateMap) :
    StateMap :=
  writes.foldl (fun st k => dinsert st k result) state

/-- `update_state(state, tool_name, result)`; `none` models the `KeyError`
on an unregistered tool name. -/
def update_state (state : StateMap) (tool_name : String) (result : Value) :
    Option StateMap :=
  (TOOLS_lookup tool_name).map (fun m => applyWrites m.state_writes result state)

/-!
## Plan validator / response normalizer (`plan_next_step`, llm.py lines 310-353)

The remote text-generation call, the cleaning of the raw text
(`clean_json_response`) and Python's `json.loads` are the external boundary;
the model takes their combined outcome as `parsed : Option Value`
(`none` = the text was empty or failed to parse, which the code's
empty-response check and `json.JSONDecodeError` handler both turn into a
fallback plan).  What is embedded is the code's own validation and fallback
logic downstream of the parse.
-/

/-- The three `required_fields` of llm.py line 334. -/
def requiredPlanFields : List String := ["tool", "reason", "is_complete"]

/-- `field in plan` for a parsed dict: key presence. -/
def planFieldsPresent (fields : List (String × Value)) : Bool :=
  requiredPlanFields.all (fun f => (List.lookup f fields).isSome)

/-- The fallback plan shape shared by every recovery path of
`plan_next_step`: tool `fetch_emails`, `is_complete` false, with a
path-specific reason string. -/
def fallbackPlan (reason : String) : Value :=
  .dict [("tool", .str "fetch_emails"), ("reason", .str reason),
         ("is_complete", .bool false)]

/-- The deterministic part of `plan_next_step`: parse failure hits the
`json.JSONDecodeError` handler; a parsed dict is checked for presence of the
three required fields (presence only -- nothing else) and returned unchanged
when they are all there; a parsed non-dict either fails the membership check
or raises `TypeError` at the subsequent `plan['tool']` subscript, and both are
caught by the broad `except` -- in the source the exception text is
interpolated into the reason, which the model fixes to a constant string. -/
def plan_next_step (parsed : Option Value) : Value :=
  match parsed with
  | none => fallbackPlan "Starting with email fetch due to JSON parsing error"
  | some (.dict fields) =>
    if planFieldsPresent fields then .dict fields
    else fallbackPlan "Starting with email fetch due to invalid response format"
  | some _ => fallbackPlan "Starting with email fetch due to error"

/-!
## Dispatch loop (`invoke_agent`, agent.py lines 93-157)

Tool callables are external collaborators (Gmail, the text-generation
service); the loop takes them as `impls : String → StateMap → Option Value`
(`none` = the tool raised).  The oracle's successive parse outcomes are a
sequence `oracle : Nat → Option Value`.  Python's unbounded `while True:` is
embedded with explicit fuel: `.outOfFuel` means the loop was still running
after that many iterations.
-/

/-- Errors that abort a run (re-raised through `invoke_agent`'s `except`). -/
inductive AgentError where
  | planKeyError
  /-- `raise ValueError(f"Invalid tool selected: ...")` of line 140 (for an
  unhashable tool value the `in` test raises `TypeError` instead; both abort
  identically before any tool call and are collapsed here). -/
  | invalidTool (tool : Value)
  /-- `AttributeError` raised inside `prepare_tool_params`'s filter. -/
  | bindRaised
  /-- The tool callable raised. -/
  | toolRaised
deriving Repr

/-- Outcome of one iteration of the `while True:` body for a given
normalized plan. -/
inductive StepResult where
  | done (artifact : Value)
  | next (state : StateMap)
  | err (e : AgentError)
deriving Repr

/-- The sentinel of line 136. -/
def noNewslettersMsg : String :=
  "# Newsletter Digest\n\nNo newsletters found in the analyzed emails."

/-- `plan[k]` subscript on the normalized plan; `none` models the
`KeyError`/`TypeError` when the plan is not a dict with that key (unreachable
for plans produced by `plan_next_step`, which always carry all three keys). -/
def objGet (v : Value) (k : String) : Option Value :=
  match v with
  | .dict fs => List.lookup k fs
  | _ => none

/-- One iteration of the loop body, lines 129-153: read the plan's fields
(line 129 touches `plan['tool']` and `plan['reason']` before anything else);
if `plan['is_complete']` is truthy return `state['digest'] or <sentinel>`;
if `plan['tool']` is falsy or not a registry key raise; otherwise bind
parameters, invoke the tool and apply its manifest writes to state. -/
def agentStep (impls : String → StateMap → Option Value) (email_count : Int)
    (plan : Value) (state : StateMap) : StepResult :=
  match objGet plan "tool", objGet plan "reason", objGet plan "is_complete" with
  | some toolv, some _, some icv =>
    if pyTruthy icv then
      match List.lookup "digest" state with
      | some d => .done (if pyTruthy d then d else .str noNewslettersMsg)
      | none => .err .planKeyError
    else if !pyTruthy toolv then .err (.invalidTool toolv)
    else
      match toolv with
      | .str tname =>
        match TOOLS_lookup tname with
        | some m =>
          match bindParams state email_count m.input_params [] with
          | some params =>
            match impls tname params with
            | some result => .next (applyWrites m.state_writes result state)
            | none => .err .toolRaised
          | none => .err .bindRaised
        | none => .err (.invalidTool toolv)
      | _ => .err (.invalidTool toolv)
  | _, _, _ => .err .planKeyError

/-- Result of running the loop with a given amount of fuel. -/
inductive LoopResult where
  | outOfFuel
  | done (artifact : Value)
  | failed (e : AgentError)
deriving Repr

/-- The `while True:` loop, consuming one oracle response per iteration. -/
def loopFuel (oracle : Nat → Option Value)
    (impls : String → StateMap → Option Value) (email_count : Int) :
    Nat → Nat → StateMap → LoopResult
  | 0, _, _ => .outOfFuel
  | fuel + 1, i, state =>
    match agentStep impls email_count (plan_next_step (oracle i)) state with
    | .done v => .done v
    | .err e => .failed e
    | .next s' => loopFuel oracle impls email_count fuel (i + 1) s'

/-- The initial state of lines 107-113. -/
def initState (email_count : Int) : StateMap :=
  [("emails", .list []), ("newsletters", .list []),
   ("summarized_newsletters", .list []), ("digest", .null),
   ("email_count", .int email_count)]

/-- `invoke_agent(email_count)`, run against a given oracle and given tool
implementations, observed up to `fuel` iterations. -/
def invoke_agent (email_count : Int) (oracle : Nat → Option Value)
    (impls : String → StateMap → Option Value) (fuel : Nat) : LoopResult :=
  loopFuel oracle impls email_count fuel 0 (initState email_count)

/-!
## Helper lemmas
-/

theorem applyWrites_lookup_not_mem (writes : List String) (result : Value)
    (state : StateMap) (k : String) (h : k ∉ writes) :
    List.lookup k (applyWrites writes result state) = List.lookup k state := by
  induction writes generalizing state with
  | nil => rfl
  | cons w ws ih =>
    have hk : k ≠ w := fun hh => h (hh ▸ List.mem_cons_self w ws)
    have hks : k ∉ ws := fun hh => h (List.mem_cons_of_mem w hh)
    calc List.lookup k (applyWrites (w :: ws) result state)
        = List.lookup k (applyWrites ws result (dinsert state w result)) := rfl
      _ = List.lookup k (dinsert state w result) := ih (dinsert state w result) hks
      _ = List.lookup k state := lookup_dinsert_ne state k w result hk

theorem applyWrites_lookup_mem (writes : List String) (result : Value)
    (state : StateMap) (k : String) (h : k ∈ writes) :
    List.lookup k (applyWrites writes result state) = some result := by
  induction writes generalizing state with
  | nil => cases h
  | cons w ws ih =>
    by_cases hks : k ∈ ws
    · exact ih (dinsert state w result) hks
    · have hk : k = w := by
        rcases List.mem_cons.mp h with h1 | h1
        · exact h1
        · exact absurd h1 hks
      subst hk
      calc List.lookup k (applyWrites (k :: ws) result state)
          = List.lookup k (applyWrites ws result (dinsert state k result)) := rfl
        _ = List.lookup k (dinsert state k result) :=
            applyWrites_lookup_not_mem ws result (dinsert state k result) k hks
        _ = some result := lookup_dinsert_self state k result

/-!
## Claim C8: uniform broadcast of a tool result over its declared writes
-/

/-- C8: `update_state` assigns the same tool result to every key listed in
the manifest's `state_requirements.writes` (uniform broadcast, also for a
hypothetical manifest declaring several write keys); the value written is
`result` itself, independent of any prior value of a write key; and every
state key not listed in the writes keeps its previous value. -/
theorem claim_C8_update_state_broadcast :
    (∀ (writes : List String) (result : Value) (state : StateMap) (k : String),
      (k ∈ writes →
        List.lookup k (applyWrites writes result state) = some result)
      ∧ (k ∉ writes →
        List.lookup k (applyWrites writes result state) = List.lookup k state))
    ∧ (∀ (tool : String) (m : Manifest), TOOLS_lookup tool = some m →
        ∀ (state : StateMap) (result : Value),
        update_state state tool result =
          some (applyWrites m.state_writes result state)) := by
  constructor
  · intro writes result state k
    exact ⟨applyWrites_lookup_mem writes result state k,
           applyWrites_lookup_not_mem writes result state k⟩
  · intro tool m hm state result
    simp [update_state, hm]

/-- Witness for C8 at a concrete two-key write list and a registered tool. -/
theorem claim_C8_witness :
    List.lookup "newsletters"
      (applyWrites ["newsletters", "digest"] (.int 3) (initState 1)) =
      some (.int 3)
    ∧ List.lookup "digest"
      (applyWrites ["newsletters", "digest"] (.int 3) (initState 1)) =
      some (.int 3)
    ∧ List.lookup "emails"
      (applyWrites ["newsletters", "digest"] (.int 3) (initState 1)) =
      List.lookup "emails" (initState 1)
    ∧ update_state (initState 1) "analyze_newsletters" (.int 3) =
      some (applyWrites analyzeNewslettersManifest.state_writes (.int 3)
        (initState 1)) := by
  have h := claim_C8_update_state_broadcast
  refine ⟨(h.1 _ _ _ _).1 (by simp), (h.1 _ _ _ _).1 (by simp),
          (h.1 _ _ _ _).2 (by simp), h.2 "analyze_newsletters" _ rfl _ _⟩

/-!
## Claim C7: the invocation-time constant always wins and is never overwritten
-/

theorem bindParam_num_emails (state : StateMap) (ec : Int) (acc : StateMap)
    (spec : ParamSpec) :
    bindParam state ec acc "num_emails" spec =
      some (dinsert acc "num_emails" (.int ec)) := by
  simp [bindParam]


theorem bindParam_shape (state : StateMap) (ec : Int) (acc acc' : StateMap)
    (p : String) (spec : ParamSpec)
    (h : bindParam state ec acc p spec = some acc') :
    acc' = acc ∨ ∃ v, acc' = dinsert acc p v := by
  unfold bindParam at h
  split at h
  · cases h
    exact Or.inr ⟨_, rfl⟩
  · split at h
    · split at h
      · split at h
        · rw [Option.map_eq_some'] at h
          obtain ⟨ys, _, hy⟩ := h
          exact Or.inr ⟨_, hy.symm⟩
        · cases h
          exact Or.inr ⟨_, rfl⟩
      · cases h
        exact Or.inr ⟨_, rfl⟩
    · cases h
      exact Or.inl rfl

theorem bindParam_lookup_other (state : StateMap) (ec : Int)
    (acc acc' : StateMap) (p : String) (spec : ParamSpec) (k : String)
    (hp : p ≠ k) (h : bindParam state ec acc p spec = some acc') :
    List.lookup k acc' = List.lookup k acc := by
  rcases bindParam_shape state ec acc acc' p spec h with h1 | ⟨v, h1⟩
  · rw [h1]
  · rw [h1]
    exact lookup_dinsert_ne acc k p v (fun hh => hp hh.symm)

theorem bindParams_num_emails_inv (state : StateMap) (ec : Int) :
    ∀ (params : List (String × ParamSpec)) (acc res : StateMap),
    bindParams state ec params acc = some res →
    ("num_emails" ∈ params.map Prod.fst
      ∨ List.lookup "num_emails" acc = some (.int ec)) →
    List.lookup "num_emails" res = some (.int ec) := by
  intro params
  induction params with
  | nil =>
    intro acc res h hd
    cases h
    rcases hd with hd | hd
    · cases hd
    · exact hd
  | cons hdp rest ih =>
    intro acc res h hd
    obtain ⟨p, spec⟩ := hdp
    simp only [bindParams] at h
    cases hb : bindParam state ec acc p spec with
    | none => rw [hb] at h; cases h
    | some acc' =>
      rw [hb] at h
      by_cases hnum : p = "num_emails"
      · subst hnum
        rw [bindParam_num_emails] at hb
        cases hb
        exact ih _ res h (Or.inr (lookup_dinsert_self acc _ _))
      · rcases hd with hd | hd
        · rw [List.map_cons] at hd
          rcases List.mem_cons.mp hd with h1 | h1
          · exact absurd h1.symm hnum
          · exact ih _ res h (Or.inl h1)
        · have hpre := bindParam_lookup_other state ec acc acc' p spec
            "num_emails" (fun hh => hnum hh) hb
          exact ih _ res h (Or.inr (hpre.trans hd))

theorem TOOLS_writes_no_email_count (tool : String) (m : Manifest)
    (h : TOOLS_lookup tool = some m) : "email_count" ∉ m.state_writes := by
  unfold TOOLS_lookup at h
  split_ifs at h <;> cases h <;> simp [fetchEmailsManifest,
    analyzeNewslettersManifest, summarizeNewslettersManifest,
    formatDigestManifest]

/-- C7: (1) for every manifest that declares the parameter `num_emails`,
binding maps `num_emails` to the invocation-time constant `email_count`,
whatever the state holds under that name; (2) `update_state` never changes
the `email_count` state entry, for any registered tool and any result; and
(3) the loop's initial state carries `email_count`.  Together: the constant
injected at loop start always takes precedence over state and survives every
iteration of the run. -/
theorem claim_C7_email_count_constant :
    (∀ (m : Manifest) (state : StateMap) (ec : Int) (ps : StateMap),
      "num_emails" ∈ m.input_params.map Prod.fst →
      bindParams state ec m.input_params [] = some ps →
      List.lookup "num_emails" ps = some (.int ec))
    ∧ (∀ (tool : String) (state s' : StateMap) (result : Value),
      update_state state tool result = some s' →
      List.lookup "email_count" s' = List.lookup "email_count" state)
    ∧ (∀ ec : Int, List.lookup "email_count" (initState ec) = some (.int ec)) := by
  refine ⟨?_, ?_, ?_⟩
  · intro m state ec ps hmem h
    exact bindParams_num_emails_inv state ec m.input_params [] ps h (Or.inl hmem)
  · intro tool state s' result h
    simp only [update_state, Option.map_eq_some'] at h
    obtain ⟨m, hm, hs⟩ := h
    subst hs
    exact applyWrites_lookup_not_mem m.state_writes result state "email_count"
      (TOOLS_writes_no_email_count tool m hm)
  · intro ec
    rfl

/-- Witness for C7: the `fetch_emails` manifest declares `num_emails`; a
state carrying a conflicting `num_emails` entry is overridden by the
constant, and `update_state` for `fetch_emails` leaves `email_count` alone. -/
theorem claim_C7_witness :
    List.lookup "num_emails"
      ((prepare_tool_params "fetch_emails" [("num_emails", .int 99)] 7).getD []) =
      some (.int 7)
    ∧ List.lookup "email_count"
        ((update_state (initState 7) "fetch_emails" (.list [])).getD []) =
      List.lookup "email_count" (initState 7)
    ∧ List.lookup "email_count" (initState 7) = some (.int 7) := by
  have h := claim_C7_email_count_constant
  refine ⟨?_, ?_, h.2.2 7⟩
  · exact h.1 fetchEmailsManifest [("num_emails", .int 99)] 7 _ (by decide) rfl
  · exact h.2.1 "fetch_emails" (initState 7) _ (.list []) rfl

/-!
## Claim C10: only declared input parameters are ever bound
-/

theorem keys_dinsert (s : StateMap) (k : String) (v : Value) (k' : String)
    (h : k' ∈ (dinsert s k v).map Prod.fst) :
    k' = k ∨ k' ∈ s.map Prod.fst := by
  induction s with
  | nil =>
    simp only [dinsert, List.map_cons, List.map_nil] at h
    rcases List.mem_cons.mp h with h1 | h1
    · exact Or.inl h1
    · cases h1
  | cons hd tl ih =>
    obtain ⟨k0, v0⟩ := hd
    by_cases h0 : k0 = k
    · simp only [dinsert, h0, beq_self_eq_true, if_true, List.map_cons] at h
      rcases List.mem_cons.mp h with h1 | h1
      · exact Or.inl h1
      · exact Or.inr (by simpa using List.mem_cons_of_mem k0 h1)
    · have hb : (k0 == k) = false := beq_eq_false_iff_ne.mpr h0
      simp only [dinsert, hb, if_false, List.map_cons] at h
      rcases List.mem_cons.mp h with h1 | h1
      · exact Or.inr (by simp [h1])
      · rcases ih h1 with h2 | h2
        · exact Or.inl h2
        · exact Or.inr (by simp [List.mem_cons]; exact Or.inr (by simpa using h2))

theorem bindParams_keys (state : StateMap) (ec : Int) :
    ∀ (params : List (String × ParamSpec)) (acc res : StateMap),
    bindParams state ec params acc = some res →
    ∀ k, k ∈ res.map Prod.fst →
    k ∈ acc.map Prod.fst ∨ k ∈ params.map Prod.fst := by
  intro params
  induction params with
  | nil =>
    intro acc res h k hk
    cases h
    exact Or.inl hk
  | cons hdp rest ih =>
    intro acc res h k hk
    obtain ⟨p, spec⟩ := hdp
    simp only [bindParams] at h
    cases hb : bindParam state ec acc p spec with
    | none => rw [hb] at h; cases h
    | some acc' =>
      rw [hb] at h
      rcases ih acc' res h k hk with h1 | h1
      · rcases bindParam_shape state ec acc acc' p spec hb with h2 | ⟨v, h2⟩
        · exact Or.inl (h2 ▸ h1)
        · rcases keys_dinsert acc p v k (h2 ▸ h1) with h3 | h3
          · exact Or.inr (by rw [List.map_cons]; exact h3 ▸ List.mem_cons_self p _)
          · exact Or.inl h3
      · exact Or.inr (by rw [List.map_cons]; exact List.mem_cons_of_mem p h1)

/-- C10: for every registered tool, every state and every `email_count`, the
argument mapping produced by `prepare_tool_params` contains only keys that
appear among the tool's declared `input_params`; state entries that are not
declared inputs of the selected tool are never passed to its callable. -/
theorem claim_C10_only_declared_params :
    ∀ (tool : String) (m : Manifest), TOOLS_lookup tool = some m →
    ∀ (state : StateMap) (ec : Int) (ps : StateMap),
    prepare_tool_params tool state ec = some ps →
    ∀ k, k ∈ ps.map Prod.fst → k ∈ m.input_params.map Prod.fst := by
  intro tool m hm state ec ps hp k hk
  unfold prepare_tool_params at hp
  rw [hm] at hp
  rcases bindParams_keys state ec m.input_params [] ps hp k hk with h1 | h1
  · cases h1
  · exact h1

/-- Witness for C10: binding `analyze_newsletters` against a state holding an
extra, undeclared entry passes through only the declared `emails` input. -/
theorem claim_C10_witness :
    prepare_tool_params "analyze_newsletters"
      [("emails", .list []), ("junk", .int 1)] 3 = some [("emails", .list [])]
    ∧ "emails" ∈ analyzeNewslettersManifest.input_params.map Prod.fst := by
  refine ⟨rfl, ?_⟩
  exact claim_C10_only_declared_params "analyze_newsletters"
    analyzeNewslettersManifest rfl [("emails", .list []), ("junk", .int 1)] 3
    [("emails", .list [])] rfl "emails" (by decide)

/-!
## Claim C5: filter correctness at bind time
-/

/-- Whether a value is a Python dict (an object with a `.get` method). -/
def Value.isDict : Value → Bool
  | .dict _ => true
  | _ => false

theorem filterTest_isSome_of_isDict (f : String) (v : Value) (x : Value)
    (h : x.isDict = true) : (filterTest f v x).isSome = true := by
  cases x <;> simp_all [Value.isDict, filterTest]

theorem applyFilter_eq_filter (f : String) (v : Value) (xs : List Value)
    (h : xs.all Value.isDict = true) :
    applyFilter f v xs =
      some (xs.filter (fun x => (filterTest f v x).getD false)) := by
  induction xs with
  | nil => rfl
  | cons x rest ih =>
    rw [List.all_cons, Bool.and_eq_true] at h
    have hx := filterTest_isSome_of_isDict f v x h.1
    cases hb : filterTest f v x with
    | none => rw [hb] at hx; cases hx
    | some b =>
      simp only [applyFilter, hb, ih h.2, Option.map_some', List.filter_cons,
        Option.getD_some]

/-- C5: when a manifest parameter (other than the reserved `num_emails`)
carries a filter `{field := f, value := v}` and the state holds a list of
dict items under that parameter's name, the binder binds exactly the
subsequence of items whose `f` attribute (`item.get(f)`, Python `==`) equals
`v`; the bound list is a sublist of the original (surviving elements keep
their order), and the original list held in state is untouched -- the binder
builds a fresh list and never returns a modified state. -/
theorem claim_C5_filter_correctness (state acc : StateMap) (ec : Int)
    (p : String) (spec : ParamSpec) (f : String) (v : Value) (xs : List Value)
    (hp : p ≠ "num_emails")
    (hf : spec.filter = some { field := f, value := v })
    (hs : List.lookup p state = some (.list xs))
    (hd : xs.all Value.isDict = true) :
    bindParam state ec acc p spec =
      some (dinsert acc p
        (.list (xs.filter (fun x => (filterTest f v x).getD false))))
    ∧ (xs.filter (fun x => (filterTest f v x).getD false)).Sublist xs := by
  constructor
  · simp only [bindParam, beq_iff_eq, hp, if_false, hs, hf,
      applyFilter_eq_filter f v xs hd, Option.map_some']
  · exact List.filter_sublist xs

/-- Witness for C5 at a concrete three-element list with boolean field
`is_newsletter`: exactly the `true` element survives, in place. -/
theorem claim_C5_witness :
    bindParam
      [("newsletters", .list [.dict [("is_newsletter", .bool true), ("s", .str "a")],
                              .dict [("is_newsletter", .bool false)],
                              .dict [("other", .int 1)]])]
      5 [] "newsletters"
      { type := "List[Dict[str, Any]]", description := "d", required := true,
        default := none,
        filter := some { field := "is_newsletter", value := .bool true } } =
      some [("newsletters",
             .list [.dict [("is_newsletter", .bool true), ("s", .str "a")]])]
    ∧ ([Value.dict [("is_newsletter", .bool true), ("s", .str "a")]]).Sublist
        [.dict [("is_newsletter", .bool true), ("s", .str "a")],
         .dict [("is_newsletter", .bool false)],
         .dict [("other", .int 1)]] := by
  have h := claim_C5_filter_correctness
    [("newsletters", .list [.dict [("is_newsletter", .bool true), ("s", .str "a")],
                            .dict [("is_newsletter", .bool false)],
                            .dict [("other", .int 1)]])]
    [] 5 "newsletters"
    { type := "List[Dict[str, Any]]", description := "d", required := true,
      default := none,
      filter := some { field := "is_newsletter", value := .bool true } }
    "is_newsletter" (.bool true)
    [.dict [("is_newsletter", .bool true), ("s", .str "a")],
     .dict [("is_newsletter", .bool false)],
     .dict [("other", .int 1)]]
    (by decide) rfl rfl rfl
  exact ⟨h.1, h.2⟩

/-!
## Claim C9: treatment of elements lacking the filter field
-/

/-- C9 counterexample: with a filter whose `value` is nil (`None`), an
element that lacks the field entirely is KEPT, not dropped: its lookup
defaults to `None` and `None == None` holds.  The claim's universal "every
list element that lacks the field f entirely is dropped" therefore fails at
the filter spec `{field: "is_newsletter", value: None}` on the one-element
list `[{}]`. -/
theorem claim_C9_counterexample :
    bindParam [("items", .list [.dict []])] 0 [] "items"
      { type := "List[Dict[str, Any]]", description := "d", required := true,
        default := none,
        filter := some { field := "is_newsletter", value := .null } } =
      some [("items", .list [.dict []])]
    ∧ List.lookup "is_newsletter" ([] : List (String × Value)) = none := ⟨rfl, rfl⟩

/-- Whether a value is the Python constant `True`. -/
def valueIsTrueB : Value → Bool
  | .bool b => b
  | _ => false

theorem eq_true_of_valueIsTrueB (v : Value) (h : valueIsTrueB v = true) :
    v = .bool true := by
  cases v <;> simp_all [valueIsTrueB]

/-- Every filter declared by a manifest carries the value `True`. -/
def manifestFiltersTrue (m : Manifest) : Bool :=
  m.input_params.all (fun pe =>
    match pe.2.filter with
    | some fl => valueIsTrueB fl.value
    | none => true)

/-- C9 as amended: an element lacking the field compares as nil, so the
comparison never raises on a dict element and the element is dropped exactly
when the filter value differs from nil; in particular, for a filter value of
Python `True` -- the value carried by every filter actually declared in the
registry's manifests -- field-lacking elements are always dropped. -/
theorem claim_C9_amended :
    (∀ (f : String) (v : Value) (fs : List (String × Value)),
      List.lookup f fs = none →
      filterTest f v (.dict fs) = some (pyEq .null v))
    ∧ (∀ (f : String) (fs : List (String × Value)),
      List.lookup f fs = none →
      filterTest f (.bool true) (.dict fs) = some false)
    ∧ (∀ (tool : String) (m : Manifest), TOOLS_lookup tool = some m →
      ∀ (p : String) (spec : ParamSpec), (p, spec) ∈ m.input_params →
      ∀ fl, spec.filter = some fl → fl.value = .bool true) := by
  have h1 : ∀ (f : String) (v : Value) (fs : List (String × Value)),
      List.lookup f fs = none →
      filterTest f v (.dict fs) = some (pyEq .null v) := by
    intro f v fs hf
    simp [filterTest, dictGetD, hf]
  refine ⟨h1, ?_, ?_⟩
  · intro f fs hf
    rw [h1 f (.bool true) fs hf]
    rfl
  · intro tool m hm p spec hmem fl hfl
    have hmf : manifestFiltersTrue m = true := by
      unfold TOOLS_lookup at hm
      split_ifs at hm <;> cases hm <;> rfl
    have hall : (match spec.filter with
        | some fl => valueIsTrueB fl.value
        | none => true) = true :=
      List.all_eq_true.mp hmf (p, spec) hmem
    rw [hfl] at hall
    exact eq_true_of_valueIsTrueB fl.value hall

/-- Witness for C9 (amended): on a dict element without the field, the test
evaluates to `None == value`, false for the manifests' filter value `True`;
and the `summarize_newsletters` filter value is indeed `True`. -/
theorem claim_C9_witness :
    filterTest "is_newsletter" .null (.dict [("other", .int 1)]) =
      some (pyEq .null .null)
    ∧ filterTest "is_newsletter" (.bool true) (.dict [("other", .int 1)]) =
      some false
    ∧ ({ field := "is_newsletter", value := .bool true } : FilterSpec).value =
      .bool true := by
  have h := claim_C9_amended
  refine ⟨h.1 "is_newsletter" .null [("other", .int 1)] rfl,
          h.2.1 "is_newsletter" [("other", .int 1)] rfl,
          h.2.2 "summarize_newsletters" summarizeNewslettersManifest rfl
            "newsletters" _ (List.mem_singleton.mpr rfl) _ rfl⟩

/-!
## Claim C2: fallback behaviour of the plan normalizer
-/

/-- Whether a parse outcome is a dict carrying the three required plan
fields (the only condition the code actually checks before trusting it). -/
def planObjOk : Option Value → Bool
  | some (.dict fs) => planFieldsPresent fs
  | _ => false

/-- C2 counterexample: a response that parses to an object holding all three
fields but with WRONG TYPES (`tool` a number, `is_complete` a string) is
returned unchanged by the normalizer, not replaced by the fallback plan --
the code validates field presence only, never types, so the claim
"wrong-typed fields yield the fallback plan with tool `fetch_emails` and
`isComplete` false" fails on the input
`{"tool": 1, "reason": "r", "is_complete": "yes"}`. -/
theorem claim_C2_counterexample :
    plan_next_step (some (.dict [("tool", .int 1), ("reason", .str "r"),
        ("is_complete", .str "yes")])) =
      .dict [("tool", .int 1), ("reason", .str "r"),
        ("is_complete", .str "yes")]
    ∧ objGet (.dict [("tool", .int 1), ("reason", .str "r"),
        ("is_complete", .str "yes")]) "tool" ≠ some (.str "fetch_emails")
    ∧ objGet (.dict [("tool", .int 1), ("reason", .str "r"),
        ("is_complete", .str "yes")]) "is_complete" ≠ some (.bool false) := by
  refine ⟨rfl, ?_, ?_⟩ <;> simp [objGet, List.lookup]

/-- C2 as amended: the normalizer returns the deterministic fallback plan --
tool `fetch_emails`, `isComplete` false -- exactly when the cleaned text
fails to parse, or parses to a non-object, or parses to an object missing
one of the three required fields; an object containing all three fields is
returned unchanged, regardless of extra fields or of the fields' types.  In
all cases a plan value is returned; nothing is raised to the caller. -/
theorem claim_C2_amended (parsed : Option Value) :
    (planObjOk parsed = false →
      objGet (plan_next_step parsed) "tool" = some (.str "fetch_emails")
      ∧ objGet (plan_next_step parsed) "is_complete" = some (.bool false))
    ∧ (∀ fields, parsed = some (.dict fields) →
      planFieldsPresent fields = true → plan_next_step parsed = .dict fields) := by
  constructor
  · intro hbad
    cases parsed with
    | none => exact ⟨rfl, rfl⟩
    | some v =>
      cases v with
      | dict fields =>
        simp only [planObjOk] at hbad
        simp only [plan_next_step, hbad, if_false]
        exact ⟨rfl, rfl⟩
      | null => exact ⟨rfl, rfl⟩
      | bool b => exact ⟨rfl, rfl⟩
      | int n => exact ⟨rfl, rfl⟩
      | str s => exact ⟨rfl, rfl⟩
      | list xs => exact ⟨rfl, rfl⟩
  · intro fields hp hok
    subst hp
    simp only [plan_next_step, hok, if_true]

/-- Witness for C2 (amended): a parse failure yields the fallback fields,
and a well-formed object is passed through unchanged. -/
theorem claim_C2_witness :
    (objGet (plan_next_step none) "tool" = some (.str "fetch_emails")
      ∧ objGet (plan_next_step none) "is_complete" = some (.bool false))
    ∧ plan_next_step (some (.dict [("tool", .str "format_digest"),
        ("reason", .str "ready"), ("is_complete", .bool false)])) =
      .dict [("tool", .str "format_digest"), ("reason", .str "ready"),
        ("is_complete", .bool false)] := by
  refine ⟨(claim_C2_amended none).1 rfl, ?_⟩
  exact (claim_C2_amended _).2 _ rfl rfl

/-!
## Claim C3: missing required parameters and defaults at bind time
-/

/-- C3: the binder contradicts the specified contract.  `newsletters` is a
declared, `required: true` input of `summarize_newsletters` with no filter
exemption, yet binding against a state that lacks the key succeeds and
returns an EMPTY parameter mapping: no `MissingParameterError` (or any
failure) is produced at binding time, and no manifest default is consulted
for unresolved parameters -- the parameter is silently omitted.  (The
omission only surfaces later, as Python's generic `TypeError` when the tool
callable is invoked without its required argument.) -/
theorem claim_C3_silent_omission :
    prepare_tool_params "summarize_newsletters" [] 5 = some []
    ∧ (List.lookup "newsletters"
        summarizeNewslettersManifest.input_params).map ParamSpec.required =
      some true
    ∧ prepare_tool_params "fetch_emails" [] 5 = some [("num_emails", .int 5)] :=
  ⟨rfl, rfl, rfl⟩

/-!
## Claim C4: completion handling and the digest-or-sentinel return
-/

/-- Tool-implementation stub: every tool returns the empty list. -/
def implsStub : String → StateMap → Option Value := fun _ _ => some (.list [])

/-- A normalized plan declaring completion. -/
def planDone : Value :=
  .dict [("tool", .null), ("reason", .str "done"), ("is_complete", .bool true)]

/-- The loop state after a `format_digest` implementation returned the empty
string: the `digest` key is present and holds `""`. -/
def stEmptyDigest : StateMap :=
  [("emails", .list []), ("newsletters", .list []),
   ("summarized_newsletters", .list []), ("digest", .str ""),
   ("email_count", .int 5)]

/-- C4 counterexample: with `digest` PRESENT in state (holding the empty
string, a value a digest-formatting tool may legitimately return), the loop
nevertheless returns the sentinel, because line 136 tests Python truthiness
(`state['digest'] or ...`), not presence.  The claim's "returns
state['digest'] if present" fails here. -/
theorem claim_C4_counterexample :
    agentStep implsStub 5 planDone stEmptyDigest =
      .done (.str noNewslettersMsg)
    ∧ List.lookup "digest" stEmptyDigest = some (.str "")
    ∧ (Value.str "" ≠ .str noNewslettersMsg) := by
  refine ⟨rfl, rfl, ?_⟩
  simp [noNewslettersMsg]

/-- C4 as amended: whenever the normalized plan's `is_complete` field is
truthy, the iteration ends as DONE with artifact `state['digest']` if that
value is present AND truthy (non-nil, non-empty), else exactly the fixed
sentinel string; the plan's `tool` field is ignored (the conclusion does not
depend on it), and no tool is invoked (the conclusion holds for every
`impls`).  The same holds for the whole loop when the oracle produces such a
plan. -/
theorem claim_C4_complete_returns_digest_or_sentinel
    (impls : String → StateMap → Option Value) (ec : Int) (plan : Value)
    (state : StateMap) (tv rv icv d : Value)
    (ht : objGet plan "tool" = some tv)
    (hr : objGet plan "reason" = some rv)
    (hic : objGet plan "is_complete" = some icv)
    (htruthy : pyTruthy icv = true)
    (hd : List.lookup "digest" state = some d) :
    agentStep impls ec plan state =
      .done (if pyTruthy d then d else .str noNewslettersMsg)
    ∧ ∀ (oracle : Nat → Option Value) (fuel i : Nat),
      plan_next_step (oracle i) = plan →
      loopFuel oracle impls ec (fuel + 1) i state =
        .done (if pyTruthy d then d else .str noNewslettersMsg) := by
  have hstep : agentStep impls ec plan state =
      .done (if pyTruthy d then d else .str noNewslettersMsg) := by
    unfold agentStep
    simp only [ht, hr, hic, htruthy, hd, eq_self_iff_true, if_true]
  refine ⟨hstep, ?_⟩
  intro oracle fuel i hor
  unfold loopFuel
  rw [hor, hstep]

/-- Witness for C4 (amended): a run whose first oracle response is a
completion plan returns the sentinel from the fresh initial state (whose
`digest` is `None`, hence falsy). -/
theorem claim_C4_witness :
    agentStep implsStub 3 planDone (initState 3) =
      .done (.str noNewslettersMsg)
    ∧ loopFuel (fun _ => some planDone) implsStub 3 1 0 (initState 3) =
      .done (.str noNewslettersMsg) := by
  have h := claim_C4_complete_returns_digest_or_sentinel implsStub 3 planDone
    (initState 3) .null (.str "done") (.bool true) .null rfl rfl rfl rfl rfl
  exact ⟨h.1, h.2 (fun _ => some planDone) 0 0 rfl⟩

/-!
## Claim C6: rejection of absent/unknown tool names
-/

/-- Whether a plan's `tool` value names a registered tool (only a string can
be a key of the registry). -/
def registeredTool : Value → Bool
  | .str s => (TOOLS_lookup s).isSome
  | _ => false

/-- C6: for every normalized plan whose `is_complete` is not truthy and whose
`tool` field is falsy (`None`/empty) or not a registry key, the iteration
fails immediately with the invalid-tool error (line 140's
`raise ValueError(...)`), and the whole run terminates FAILED on that very
iteration.  The conclusion holds for every `impls` and returns no successor
state, i.e. zero tool invocations are performed and state is not touched. -/
theorem claim_C6_unknown_tool_rejected
    (impls : String → StateMap → Option Value) (ec : Int) (state : StateMap)
    (plan tv rv icv : Value)
    (ht : objGet plan "tool" = some tv)
    (hr : objGet plan "reason" = some rv)
    (hic : objGet plan "is_complete" = some icv)
    (hnc : pyTruthy icv = false)
    (hbad : pyTruthy tv = false ∨ registeredTool tv = false) :
    agentStep impls ec plan state = .err (.invalidTool tv)
    ∧ ∀ (oracle : Nat → Option Value) (fuel i : Nat),
      plan_next_step (oracle i) = plan →
      loopFuel oracle impls ec (fuel + 1) i state =
        .failed (.invalidTool tv) := by
  have hstep : agentStep impls ec plan state = .err (.invalidTool tv) := by
    unfold agentStep
    simp only [ht, hr, hic, hnc, Bool.false_eq_true, if_false]
    cases hpt : pyTruthy tv with
    | false => simp
    | true =>
      rcases hbad with hb | hb
      · rw [hpt] at hb
        cases hb
      · simp only [Bool.not_true, Bool.false_eq_true, if_false]
        cases tv with
        | str s =>
          simp only [registeredTool] at hb
          have hb2 : TOOLS_lookup s = none := by
            cases hlk : TOOLS_lookup s with
            | none => rfl
            | some m =>
              rw [hlk] at hb
              simp at hb
          simp [hb2]
        | null => rfl
        | bool b => rfl
        | int n => rfl
        | list xs => rfl
        | dict fs => rfl
  refine ⟨hstep, ?_⟩
  intro oracle fuel i hor
  unfold loopFuel
  rw [hor, hstep]

/-- Witness for C6: an oracle response naming `no_such_tool` makes the run
fail at once with the invalid-tool error. -/
theorem claim_C6_witness :
    agentStep implsStub 2
      (.dict [("tool", .str "no_such_tool"), ("reason", .str "r"),
              ("is_complete", .bool false)]) (initState 2) =
      .err (.invalidTool (.str "no_such_tool"))
    ∧ loopFuel (fun _ => some (.dict [("tool", .str "no_such_tool"),
        ("reason", .str "r"), ("is_complete", .bool false)]))
        implsStub 2 4 0 (initState 2) =
      .failed (.invalidTool (.str "no_such_tool")) := by
  have h := claim_C6_unknown_tool_rejected implsStub 2 (initState 2)
    (.dict [("tool", .str "no_such_tool"), ("reason", .str "r"),
            ("is_complete", .bool false)])
    (.str "no_such_tool") (.str "r") (.bool false) rfl rfl rfl rfl
    (Or.inr rfl)
  exact ⟨h.1, h.2 (fun _ => some (.dict [("tool", .str "no_such_tool"),
    ("reason", .str "r"), ("is_complete", .bool false)])) 3 0 rfl⟩

/-!
## Claim C1: (absence of a) termination guard
-/

/-- An oracle that forever answers with a well-formed plan naming the valid,
registered tool `fetch_emails`, with `is_complete` false. -/
def oracleRunaway : Nat → Option Value := fun _ =>
  some (.dict [("tool", .str "fetch_emails"), ("reason", .str "continue"),
               ("is_complete", .bool false)])

theorem runaway_step (ec : Int) (i : Nat) (state : StateMap) :
    agentStep implsStub ec (plan_next_step (oracleRunaway i)) state =
      .next (dinsert state "emails" (.list [])) := rfl

theorem runaway_never_terminates (ec : Int) :
    ∀ (fuel i : Nat) (state : StateMap),
    loopFuel oracleRunaway implsStub ec fuel i state = .outOfFuel := by
  intro fuel
  induction fuel with
  | zero => intro i state; rfl
  | succ n ih =>
    intro i state
    simp only [loopFuel, runaway_step]
    exact ih (i + 1) (dinsert state "emails" (.list []))

/-- C1: the dispatch loop has NO termination guard.  Against an oracle whose
every response is a valid plan naming the registered tool `fetch_emails`
with `isComplete` false, `invoke_agent` is still running after ANY number of
iterations: it never reaches a terminal state, and in particular no
`RunawayPlanningError`-like failure exists in the code (`while True:` with no
iteration cap, agent.py line 126).  This refutes the claimed bounded
termination. -/
theorem claim_C1_no_termination_guard :
    (∀ (ec : Int) (fuel : Nat),
      invoke_agent ec oracleRunaway implsStub fuel = .outOfFuel)
    ∧ (∀ i, objGet (plan_next_step (oracleRunaway i)) "tool" =
        some (.str "fetch_emails")
      ∧ objGet (plan_next_step (oracleRunaway i)) "is_complete" =
        some (.bool false)
      ∧ (TOOLS_lookup "fetch_emails").isSome = true) := by
  constructor
  · intro ec fuel
    exact runaway_never_terminates ec fuel 0 (initState ec)
  · intro i
    exact ⟨rfl, rfl, rfl⟩
